import Mathlib

/-!
Shallow embedding of `src/src/js/modules/Spreadsheet/Spreadsheet.js`
(azmy60/tabulator): the `Range` geometry class and the `Spreadsheet`
selection controller.  JavaScript numbers used as grid coordinates are
modelled as `Int` (the code subtracts 1 from 0-based column-manager
indices, so `-1` is reachable for the row-header column).  DOM and
layout work (`layoutCell`, `layoutElement`, `layoutSelection`, the
overlay) is presentation-only and mutates no selection state, so it is
not part of the model.
-/

namespace Tabulator

/-- A grid coordinate pair, as stored in `Range.start` / `Range.end`. -/
structure Pos where
  row : Int
  col : Int
deriving Repr, DecidableEq

/-- JS `class Range`: a mutable anchor pair plus the four derived
bounds recomputed by `_updateMinMax` on every mutation.  The JS field
`end` is spelled `end_` (`end` is reserved in Lean). -/
structure Range where
  start : Pos
  end_ : Pos
  minRow : Int
  maxRow : Int
  minCol : Int
  maxCol : Int
deriving Repr, DecidableEq

namespace Range

/-- JS `Range._updateMinMax`. -/
def updateMinMax (r : Range) : Range :=
  { r with
    minRow := min r.start.row r.end_.row
    maxRow := max r.start.row r.end_.row
    minCol := min r.start.col r.end_.col
    maxCol := max r.start.col r.end_.col }

/-- JS `new Range(row, col)`: both anchors at `(row, col)`, bounds
recomputed. -/
def new (row col : Int) : Range :=
  updateMinMax
    { start := ⟨row, col⟩, end_ := ⟨row, col⟩
      minRow := 0, maxRow := 0, minCol := 0, maxCol := 0 }

/-- JS `Range.setStart`. -/
def setStart (r : Range) (row col : Int) : Range :=
  updateMinMax { r with start := ⟨row, col⟩ }

/-- JS `Range.setEnd`. -/
def setEnd (r : Range) (row col : Int) : Range :=
  updateMinMax { r with end_ := ⟨row, col⟩ }

/-- JS `Range.atTopLeft`. -/
def atTopLeft (r : Range) (row col : Int) : Bool :=
  row == r.minRow && col == r.minCol

/-- JS `Range.atBottomRight`. -/
def atBottomRight (r : Range) (row col : Int) : Bool :=
  row == r.maxRow && col == r.maxCol

/-- JS `Range.isInside`. -/
def isInside (r : Range) (row col : Int) : Bool :=
  decide (r.minRow ≤ row) && decide (row ≤ r.maxRow) &&
  decide (r.minCol ≤ col) && decide (col ≤ r.maxCol)

/-- JS `Range.isStartingAt`. -/
def isStartingAt (r : Range) (row col : Int) : Bool :=
  r.start.row == row && r.start.col == col

/-- JS `Range.withinRow`. -/
def withinRow (r : Range) (row : Int) : Bool :=
  decide (row ≥ r.minRow) && decide (row ≤ r.maxRow)

/-- JS `Range.withinColumn`. -/
def withinColumn (r : Range) (col : Int) : Bool :=
  decide (col ≥ r.minCol) && decide (col ≤ r.maxCol)

/-- The four derived bound fields agree with the anchors. -/
def boundsConsistent (r : Range) : Prop :=
  r.minRow = min r.start.row r.end_.row ∧
  r.maxRow = max r.start.row r.end_.row ∧
  r.minCol = min r.start.col r.end_.col ∧
  r.maxCol = max r.start.col r.end_.col

end Range

/-- One public mutation of a `Range`. -/
inductive RangeOp where
  | setStartOp (row col : Int)
  | setEndOp (row col : Int)
deriving Repr, DecidableEq

/-- Apply one mutation. -/
def Range.applyOp (r : Range) : RangeOp → Range
  | .setStartOp row col => r.setStart row col
  | .setEndOp row col => r.setEnd row col

/-- Apply a sequence of `setStart`/`setEnd` calls in order. -/
def Range.applyOps (r : Range) (ops : List RangeOp) : Range :=
  ops.foldl Range.applyOp r

lemma Range.boundsConsistent_updateMinMax (r : Range) :
    (Range.updateMinMax r).boundsConsistent := by
  simp [Range.updateMinMax, Range.boundsConsistent]

lemma Range.boundsConsistent_new (row col : Int) :
    (Range.new row col).boundsConsistent :=
  Range.boundsConsistent_updateMinMax _

lemma Range.boundsConsistent_applyOp (r : Range) (op : RangeOp) :
    (r.applyOp op).boundsConsistent := by
  cases op <;>
    simp [Range.applyOp, Range.setStart, Range.setEnd] <;>
    exact Range.boundsConsistent_updateMinMax _

lemma Range.boundsConsistent_applyOps (r : Range) (ops : List RangeOp)
    (h : r.boundsConsistent) : (r.applyOps ops).boundsConsistent := by
  induction ops generalizing r with
  | nil => exact h
  | cons op ops ih =>
      exact ih _ (Range.boundsConsistent_applyOp r op)

/-- **C6.** For every `Range` built by the constructor and mutated by any
sequence of `setStart`/`setEnd` calls, the derived bounds satisfy
`minRow = min(start.row, end.row)`, `maxRow = max(start.row, end.row)`,
and likewise for the columns — hence `minRow ≤ maxRow` and
`minCol ≤ maxCol` whichever anchor is numerically larger; and for every
range, after `setStart(r,c); setEnd(r,c)` the bounds collapse to
`minRow = maxRow = r`, `minCol = maxCol = c`, and `isInside(r,c)` holds. -/
theorem range_bounds_consistent_of_ops (a b : Int) (ops : List RangeOp)
    (rg : Range) (r c : Int) :
    ((Range.new a b).applyOps ops).boundsConsistent ∧
    ((Range.new a b).applyOps ops).minRow ≤ ((Range.new a b).applyOps ops).maxRow ∧
    ((Range.new a b).applyOps ops).minCol ≤ ((Range.new a b).applyOps ops).maxCol ∧
    ((rg.setStart r c).setEnd r c).minRow = r ∧
    ((rg.setStart r c).setEnd r c).maxRow = r ∧
    ((rg.setStart r c).setEnd r c).minCol = c ∧
    ((rg.setStart r c).setEnd r c).maxCol = c ∧
    ((rg.setStart r c).setEnd r c).isInside r c = true := by
  have hcons : ((Range.new a b).applyOps ops).boundsConsistent :=
    Range.boundsConsistent_applyOps _ _ (Range.boundsConsistent_new a b)
  obtain ⟨h1, h2, h3, h4⟩ := hcons
  refine ⟨⟨h1, h2, h3, h4⟩, ?_, ?_, ?_⟩
  · rw [h1, h2]; exact min_le_max
  · rw [h3, h4]; exact min_le_max
  · simp [Range.setStart, Range.setEnd, Range.updateMinMax, Range.isInside]

/-- The JS field `this.selecting`: either the literal `false` (modelled
`off`) or one of the strings `"cell"`, `"row"`, `"column"`, `"all"`. -/
inductive Selecting where
  | off
  | cell
  | row
  | column
  | all
deriving Repr, DecidableEq, BEq

/-- The grid collaborator's parameters consumed by the controller:
`rowsPerPage` is the `rowsPerPage` getter (`table.getPageSize()`, or the
row count when pagination is off; the model takes the current page as
full, so it also bounds the rendered rows), and `numCols` is
`columnManager.columns.length` — the column count *including* the
prepended row-header column, so the last data column index is
`numCols - 2`. -/
structure Grid where
  rowsPerPage : Int
  numCols : Int
deriving Repr, DecidableEq

/-- A pointer-event target as the handlers see it: a column header
(`element.type === "column"`) carrying its `findColumnIndex`, or a cell
carrying its row's 1-based `position` and its column's
`findColumnIndex`.  The row-header column has `findColumnIndex = 0`, so
`element.column.field === rowHeaderField` is modelled as `idx == 0`. -/
inductive Element where
  | column (idx : Int)
  | cell (pos : Int) (idx : Int)
deriving Repr, DecidableEq

/-- Whether the element belongs to the row-header column. -/
def Element.isRowHeader : Element → Bool
  | .column idx => idx == 0
  | .cell _ idx => idx == 0

/-- Modifier-key state of a pointer event. -/
structure Ev where
  shiftKey : Bool
  ctrlKey : Bool
deriving Repr, DecidableEq

/-- The selection state owned by the `Spreadsheet` module:
`this.ranges` and `this.selecting`. -/
structure Spreadsheet where
  ranges : List Range
  selecting : Selecting
deriving Repr, DecidableEq

/-- Rewrite the last element of a list in place, as mutating the JS
array's final entry does. -/
def updateLast (f : Range → Range) : List Range → List Range
  | [] => []
  | [r] => [f r]
  | r :: rest => r :: updateLast f rest

namespace Spreadsheet

/-- Constructor state: `this.ranges = [new Range(0, 0)]` and
`this.selecting = false`. -/
def init : Spreadsheet :=
  { ranges := [Range.new 0 0], selecting := .off }

/-- JS `getActiveRange`: `this.ranges[this.ranges.length - 1]`, which is
`undefined` (here `none`) on an empty list. -/
def getActiveRange? (s : Spreadsheet) : Option Range :=
  s.ranges[s.ranges.length - 1]?

/-- JS `beginSelection`: set the active range's `start` anchor from the
element (column header → row 0; row-header cell → column 0). -/
def beginSelection (s : Spreadsheet) (element : Element) : Spreadsheet :=
  match element with
  | .column idx =>
      { s with ranges := updateLast (fun r => r.setStart 0 (idx - 1)) s.ranges }
  | .cell pos idx =>
      let row := pos - 1
      let col := idx - 1
      if idx == 0 then
        { s with ranges := updateLast (fun r => r.setStart row 0) s.ranges }
      else
        { s with ranges := updateLast (fun r => r.setStart row col) s.ranges }

/-- JS `endSelection`: set the active range's `end` anchor, with the
coordinates chosen by `this.selecting` and the element kind, in the
source's branch order. -/
def endSelection (g : Grid) (s : Spreadsheet) (element : Element) : Spreadsheet :=
  match element with
  | .column idx =>
      if s.selecting == .column then
        { s with ranges :=
            updateLast (fun r => r.setEnd (g.rowsPerPage - 1) (idx - 1)) s.ranges }
      else if s.selecting == .cell then
        { s with ranges := updateLast (fun r => r.setEnd 0 (idx - 1)) s.ranges }
      else s
  | .cell pos idx =>
      let row := pos - 1
      let col := idx - 1
      let isRowHeader := idx == 0
      if s.selecting == .row then
        { s with ranges :=
            updateLast (fun r => r.setEnd row (g.numCols - 2)) s.ranges }
      else if s.selecting != .row && isRowHeader then
        { s with ranges := updateLast (fun r => r.setEnd row 0) s.ranges }
      else if s.selecting == .column then
        { s with ranges :=
            updateLast (fun r => r.setEnd (g.rowsPerPage - 1) col) s.ranges }
      else
        { s with ranges := updateLast (fun r => r.setEnd row col) s.ranges }

/-- JS `_select`: classify the element into a mode, then apply the
modifier-key policy (shift: truncate to the last range when several
exist, extend only; ctrl: push a fresh range, begin+extend; plain:
replace the list with a fresh range, begin+extend). -/
def select (g : Grid) (s : Spreadsheet) (event : Ev) (element : Element) :
    Spreadsheet :=
  let selecting :=
    match element with
    | .column _ => Selecting.column
    | .cell _ idx => if idx == 0 then Selecting.row else Selecting.cell
  let s := { s with selecting := selecting }
  if event.shiftKey then
    let s :=
      if s.ranges.length > 1 then
        { s with ranges := s.ranges.drop (s.ranges.length - 1) }
      else s
    endSelection g s element
  else if event.ctrlKey then
    let s := { s with ranges := s.ranges ++ [Range.new 0 0] }
    endSelection g (beginSelection s element) element
  else
    let s := { s with ranges := [Range.new 0 0] }
    endSelection g (beginSelection s element) element

/-- JS `handleColumnMouseDown`: the corner header (the row-header
column's own header) is the one-shot select-all; any other header goes
through `_select`.  The synthesized cells are the first row's first data
cell and the last column's last cell. -/
def handleColumnMouseDown (g : Grid) (s : Spreadsheet) (event : Ev)
    (idx : Int) : Spreadsheet :=
  if idx == 0 then
    let s := { s with ranges := [Range.new 0 0], selecting := Selecting.all }
    let s := beginSelection s (.cell 1 1)
    endSelection g s (.cell g.rowsPerPage (g.numCols - 1))
  else
    select g s event (.column idx)

/-- JS `handleColumnMouseMove`: ignored over the row-header column's
header and when not selecting. -/
def handleColumnMouseMove (g : Grid) (s : Spreadsheet) (idx : Int) :
    Spreadsheet :=
  if idx == 0 then s
  else if s.selecting == .off then s
  else endSelection g s (.column idx)

/-- JS `handleCellMouseDown`. -/
def handleCellMouseDown (g : Grid) (s : Spreadsheet) (event : Ev)
    (pos idx : Int) : Spreadsheet :=
  select g s event (.cell pos idx)

/-- JS `handleCellMouseMove`: ignored when not selecting. -/
def handleCellMouseMove (g : Grid) (s : Spreadsheet) (pos idx : Int) :
    Spreadsheet :=
  if s.selecting == .off then s
  else endSelection g s (.cell pos idx)

/-- JS `handleMouseUp` (global document listener). -/
def handleMouseUp (s : Spreadsheet) : Spreadsheet :=
  { s with selecting := .off }

/-- JS `handlePageChanged`: only the range list is replaced;
`this.selecting` is not touched. -/
def handlePageChanged (s : Spreadsheet) : Spreadsheet :=
  { s with ranges := [Range.new 0 0] }

/-- JS `selectingAllColumnsOfRow`. -/
def selectingAllColumnsOfRow (g : Grid) (s : Spreadsheet) (row : Int) : Bool :=
  if s.selecting == .all then true
  else
    s.ranges.any fun range =>
      s.selecting == .row &&
      range.start.col == 0 &&
      range.end_.col == g.numCols - 2 &&
      range.withinRow row

/-- JS `selectingAllRowsOfColumn`. -/
def selectingAllRowsOfColumn (g : Grid) (s : Spreadsheet) (col : Int) : Bool :=
  if s.selecting == .all then true
  else
    s.ranges.any fun range =>
      s.selecting == .column &&
      range.start.row == 0 &&
      range.end_.row == g.rowsPerPage - 1 &&
      range.withinColumn col

end Spreadsheet

/-- One event delivered to the controller. -/
inductive Event where
  | columnMouseDown (shift ctrl : Bool) (idx : Int)
  | columnMouseMove (idx : Int)
  | cellMouseDown (shift ctrl : Bool) (pos idx : Int)
  | cellMouseMove (pos idx : Int)
  | mouseUp
  | pageChanged
deriving Repr, DecidableEq

/-- Dispatch one event to its handler. -/
def Spreadsheet.step (g : Grid) (s : Spreadsheet) : Event → Spreadsheet
  | .columnMouseDown shift ctrl idx =>
      s.handleColumnMouseDown g ⟨shift, ctrl⟩ idx
  | .columnMouseMove idx => s.handleColumnMouseMove g idx
  | .cellMouseDown shift ctrl pos idx =>
      s.handleCellMouseDown g ⟨shift, ctrl⟩ pos idx
  | .cellMouseMove pos idx => s.handleCellMouseMove g pos idx
  | .mouseUp => s.handleMouseUp
  | .pageChanged => s.handlePageChanged

/-- Run a sequence of events from a state. -/
def Spreadsheet.run (g : Grid) (s : Spreadsheet) (events : List Event) :
    Spreadsheet :=
  events.foldl (Spreadsheet.step g) s

/-! Helper lemmas about `updateLast` and the active range. -/

lemma updateLast_cons_cons (f : Range → Range) (a b : Range) (t : List Range) :
    updateLast f (a :: b :: t) = a :: updateLast f (b :: t) := rfl

lemma updateLast_ne_nil (f : Range → Range) (l : List Range) (h : l ≠ []) :
    updateLast f l ≠ [] := by
  cases l with
  | nil => exact absurd rfl h
  | cons a t =>
      cases t with
      | nil => simp [updateLast]
      | cons b t => rw [updateLast_cons_cons]; simp

lemma updateLast_length (f : Range → Range) :
    ∀ l : List Range, (updateLast f l).length = l.length
  | [] => rfl
  | [_] => rfl
  | a :: b :: t => by
      rw [updateLast_cons_cons]
      simp [updateLast_length f (b :: t)]

lemma getLast?_cons_of_ne_nil (x : Range) (l : List Range) (h : l ≠ []) :
    (x :: l).getLast? = l.getLast? := by
  cases l with
  | nil => exact absurd rfl h
  | cons b t => exact List.getLast?_cons_cons

lemma updateLast_getLast? (f : Range → Range) :
    ∀ l : List Range, (updateLast f l).getLast? = l.getLast?.map f
  | [] => rfl
  | [_] => rfl
  | a :: b :: t => by
      rw [updateLast_cons_cons,
        getLast?_cons_of_ne_nil a _ (updateLast_ne_nil f _ (by simp)),
        updateLast_getLast? f (b :: t), List.getLast?_cons_cons]

lemma getActiveRange?_eq_getLast? (s : Spreadsheet) :
    s.getActiveRange? = s.ranges.getLast? :=
  (List.getLast?_eq_getElem? s.ranges).symm

lemma getLast?_drop_length_sub_one (l : List Range) :
    (l.drop (l.length - 1)).getLast? = l.getLast? := by
  induction l with
  | nil => rfl
  | cons a t ih =>
      cases t with
      | nil => rfl
      | cons b t' =>
          have : (a :: b :: t').length - 1 = (b :: t').length := by simp
          rw [this, List.drop_length_cons (by simp) a, List.getLast?_cons_cons]
          have h2 : (b :: t').getLast? = some ((b :: t').getLast (by simp)) :=
            List.getLast?_eq_getLast _ _
          rw [h2]
          rfl

/-! ### C2: page change -/

/-- **C2 (counterexample).** A plain pointer-down on an ordinary cell
puts the controller mid-drag with `selecting = "cell"`; the page-change
handler then replaces `ranges` but leaves `selecting` untouched, so the
state after the page change is *not* Idle and the mode is *not* none,
contradicting the claim that a page change transitions Dragging → Idle
and sets the mode to none. -/
theorem pageChanged_keeps_drag_state_counterexample :
    (Spreadsheet.run ⟨4, 4⟩ .init
        [.cellMouseDown false false 2 2, .pageChanged]).selecting = Selecting.cell ∧
    Selecting.cell ≠ Selecting.off := by
  exact ⟨rfl, by decide⟩

/-- **C2 (amended).** On a page-change event, at any state including
mid-drag, the controller replaces `ranges` with a single fresh `Range`
whose both anchors are `(0,0)`; the dragging/mode flag `selecting` is
left unchanged, so a drag in progress stays in progress until the next
pointer-up. -/
theorem pageChanged_resets_ranges_only (s : Spreadsheet) :
    s.handlePageChanged.ranges = [Range.new 0 0] ∧
    (Range.new 0 0).start = ⟨0, 0⟩ ∧
    (Range.new 0 0).end_ = ⟨0, 0⟩ ∧
    s.handlePageChanged.selecting = s.selecting :=
  ⟨rfl, rfl, rfl, rfl⟩

/-! ### C1: extension targets in `column` mode -/

/-- **C1 (counterexample).** With `rowsPerPage = 4` (so `lastRow = 3`),
start a column-mode drag on the header of column index 1 and move onto
the row-header cell of row 1.  The claim demands the end anchor become
`(lastRow, c) = (3, c)`, but the code's row-header branch of
`endSelection` fires first and sets the end anchor to `(1, 0)`: its row
is the target's own row, not `lastRow`. -/
theorem columnMode_rowHeader_extend_counterexample :
    ((Spreadsheet.run ⟨4, 4⟩ .init
        [.columnMouseDown false false 2, .cellMouseMove 2 0]).getActiveRange?).map
        Range.end_ = some ⟨1, 0⟩ ∧
    (Spreadsheet.run ⟨4, 4⟩ .init
        [.columnMouseDown false false 2, .cellMouseMove 2 0]).selecting =
      Selecting.column ∧
    (1 : Int) ≠ (4 : Int) - 1 := by
  refine ⟨rfl, rfl, by decide⟩

/-- **C1 (amended).** While the interaction mode is `column`, an extend
whose target is a column header or an ordinary (non-row-header) cell of
column index `c` sets the active range's end anchor to `(lastRow, c)`
with `lastRow = rowsPerPage - 1`; an extend whose target is a
*row-header cell* of row `r` instead sets the end anchor to `(r, 0)`,
because `endSelection`'s row-header branch precedes its column-mode
branch. -/
theorem columnMode_extend_end_anchor (g : Grid) (s : Spreadsheet)
    (el : Element) (hmode : s.selecting = Selecting.column)
    (hne : s.ranges ≠ []) :
    ((s.endSelection g el).getActiveRange?).map Range.end_ =
      some (match el with
        | .column idx => ⟨g.rowsPerPage - 1, idx - 1⟩
        | .cell pos idx =>
            if idx = 0 then ⟨pos - 1, 0⟩
            else ⟨g.rowsPerPage - 1, idx - 1⟩) := by
  have hlast : ∃ b, s.ranges.getLast? = some b := by
    cases hl : s.ranges.getLast? with
    | none => exact absurd (List.getLast?_eq_none_iff.mp hl) hne
    | some b => exact ⟨b, rfl⟩
  obtain ⟨b, hb⟩ := hlast
  cases el with
  | column idx =>
      simp +decide [Spreadsheet.endSelection, hmode, getActiveRange?_eq_getLast?,
        updateLast_getLast?, hb, Range.setEnd, Range.updateMinMax]
  | cell pos idx =>
      by_cases hi : idx = 0
      · subst hi
        simp +decide [Spreadsheet.endSelection, hmode, getActiveRange?_eq_getLast?,
          updateLast_getLast?, hb, Range.setEnd, Range.updateMinMax]
      · simp +decide [Spreadsheet.endSelection, hmode, hi, getActiveRange?_eq_getLast?,
          updateLast_getLast?, hb, Range.setEnd, Range.updateMinMax]

/-- **C1 (witness).** The amended theorem applied at a concrete
column-mode state and a row-header-cell target. -/
theorem columnMode_extend_end_anchor_witness :
    (⟨[Range.new 0 0], Selecting.column⟩ : Spreadsheet).selecting =
        Selecting.column ∧
    (⟨[Range.new 0 0], Selecting.column⟩ : Spreadsheet).ranges ≠ [] ∧
    ((Spreadsheet.endSelection ⟨4, 4⟩ ⟨[Range.new 0 0], Selecting.column⟩
        (.cell 2 0)).getActiveRange?).map Range.end_ = some ⟨1, 0⟩ := by
  refine ⟨rfl, by simp, ?_⟩
  have h := columnMode_extend_end_anchor ⟨4, 4⟩
    ⟨[Range.new 0 0], Selecting.column⟩ (.cell 2 0) rfl (by simp)
  simpa using h

/-! ### C10: predicates are dead while idle -/

/-- **C10.** Whenever the controller is Idle (`selecting = false`, as it
is after every pointer-up), both `selectingAllColumnsOfRow` and
`selectingAllRowsOfColumn` return `false` for every row and column,
whatever `ranges` holds: whole-row/whole-column selection status never
outlives the drag that produced it. -/
theorem idle_no_full_row_col_selection (g : Grid) (s : Spreadsheet)
    (row col : Int) (h : s.selecting = Selecting.off) :
    s.selectingAllColumnsOfRow g row = false ∧
    s.selectingAllRowsOfColumn g col = false := by
  constructor
  · simp +decide [Spreadsheet.selectingAllColumnsOfRow, h]
  · simp +decide [Spreadsheet.selectingAllRowsOfColumn, h]

/-- **C10 (witness).** The theorem applied to an idle state that still
holds a wide range. -/
theorem idle_no_full_row_col_selection_witness :
    (⟨[(Range.new 0 0).setEnd 7 2], Selecting.off⟩ : Spreadsheet).selecting =
        Selecting.off ∧
    (Spreadsheet.selectingAllColumnsOfRow ⟨8, 4⟩
        ⟨[(Range.new 0 0).setEnd 7 2], Selecting.off⟩ 3 = false ∧
      Spreadsheet.selectingAllRowsOfColumn ⟨8, 4⟩
        ⟨[(Range.new 0 0).setEnd 7 2], Selecting.off⟩ 1 = false) :=
  ⟨rfl, idle_no_full_row_col_selection ⟨8, 4⟩
    ⟨[(Range.new 0 0).setEnd 7 2], Selecting.off⟩ 3 1 rfl⟩

/-! ### C7: `ranges` never empties and the active range is its last element -/

lemma beginSelection_ranges_ne_nil (s : Spreadsheet) (el : Element)
    (h : s.ranges ≠ []) : (s.beginSelection el).ranges ≠ [] := by
  cases el with
  | column idx => exact updateLast_ne_nil _ _ h
  | cell pos idx =>
      simp only [Spreadsheet.beginSelection]
      split <;> exact updateLast_ne_nil _ _ h

lemma endSelection_ranges_ne_nil (g : Grid) (s : Spreadsheet) (el : Element)
    (h : s.ranges ≠ []) : (s.endSelection g el).ranges ≠ [] := by
  cases el with
  | column idx =>
      simp only [Spreadsheet.endSelection]
      split
      · exact updateLast_ne_nil _ _ h
      · split
        · exact updateLast_ne_nil _ _ h
        · exact h
  | cell pos idx =>
      simp only [Spreadsheet.endSelection]
      split
      · exact updateLast_ne_nil _ _ h
      · split
        · exact updateLast_ne_nil _ _ h
        · split <;> exact updateLast_ne_nil _ _ h

lemma select_ranges_ne_nil (g : Grid) (s : Spreadsheet) (ev : Ev)
    (el : Element) (h : s.ranges ≠ []) :
    (Spreadsheet.select g s ev el).ranges ≠ [] := by
  simp only [Spreadsheet.select]
  split
  · refine endSelection_ranges_ne_nil _ _ _ ?_
    split
    · next hlen =>
        apply List.ne_nil_of_length_pos
        rw [List.length_drop]
        omega
    · exact h
  · split
    · refine endSelection_ranges_ne_nil _ _ _ ?_
      refine beginSelection_ranges_ne_nil _ _ ?_
      simp
    · refine endSelection_ranges_ne_nil _ _ _ ?_
      refine beginSelection_ranges_ne_nil _ _ ?_
      simp

lemma step_ranges_ne_nil (g : Grid) (s : Spreadsheet) (e : Event)
    (h : s.ranges ≠ []) : (s.step g e).ranges ≠ [] := by
  cases e with
  | columnMouseDown shift ctrl idx =>
      simp only [Spreadsheet.step, Spreadsheet.handleColumnMouseDown]
      split
      · refine endSelection_ranges_ne_nil _ _ _ ?_
        refine beginSelection_ranges_ne_nil _ _ ?_
        simp
      · exact select_ranges_ne_nil _ _ _ _ h
  | columnMouseMove idx =>
      simp only [Spreadsheet.step, Spreadsheet.handleColumnMouseMove]
      split
      · exact h
      · split
        · exact h
        · exact endSelection_ranges_ne_nil _ _ _ h
  | cellMouseDown shift ctrl pos idx =>
      exact select_ranges_ne_nil _ _ _ _ h
  | cellMouseMove pos idx =>
      simp only [Spreadsheet.step, Spreadsheet.handleCellMouseMove]
      split
      · exact h
      · exact endSelection_ranges_ne_nil _ _ _ h
  | mouseUp => exact h
  | pageChanged => simp [Spreadsheet.step, Spreadsheet.handlePageChanged]

lemma run_ranges_ne_nil (g : Grid) (events : List Event) (s : Spreadsheet)
    (h : s.ranges ≠ []) : (Spreadsheet.run g s events).ranges ≠ [] := by
  induction events generalizing s with
  | nil => exact h
  | cons e es ih => exact ih _ (step_ranges_ne_nil g s e h)

/-- **C7.** After construction (`events = []`) and after every sequence
of public operations (plain/ctrl/shift pointer-downs, pointer-move
extensions, pointer-ups, page changes), the `ranges` list is non-empty,
and `getActiveRange` — defined as `ranges[ranges.length - 1]` — is the
list's last element. -/
theorem ranges_nonempty_active_last (g : Grid) (events : List Event) :
    (Spreadsheet.run g .init events).ranges ≠ [] ∧
    (Spreadsheet.run g .init events).getActiveRange? =
      (Spreadsheet.run g .init events).ranges.getLast? ∧
    (Spreadsheet.run g .init events).getActiveRange?.isSome = true :=
  have hne : (Spreadsheet.run g .init events).ranges ≠ [] :=
    run_ranges_ne_nil g events _ (by simp [Spreadsheet.init])
  ⟨hne, getActiveRange?_eq_getLast? _, by
    rw [getActiveRange?_eq_getLast? _]
    simp [List.getLast?_eq_getLast _ hne]⟩

/-! ### C3: row-header drag -/

lemma rowHeaderDrag_state (g : Grid) :
    Spreadsheet.run g .init [.cellMouseDown false false 3 0, .cellMouseMove 6 0] =
      { ranges := [(((Range.new 0 0).setStart 2 0).setEnd 2
            (g.numCols - 2)).setEnd 5 (g.numCols - 2)],
        selecting := Selecting.row } := rfl

/-- **C3.** A drag that begins on the row-header cell of row 2 (its
row's 1-based `position` is 3) and extends to row 5 (position 6) yields
a single range with start `(2, 0)` and end `(5, lastCol)` where
`lastCol = numCols - 2` is the last data column index; its column span
is the full data-column span `0..lastCol`; and in that drag's state the
row-fully-selected predicate holds exactly for rows 2 through 5. -/
theorem rowHeader_drag_full_row_band (g : Grid) (h2 : 2 ≤ g.numCols) (row : Int) :
    (Spreadsheet.run g .init
        [.cellMouseDown false false 3 0, .cellMouseMove 6 0]).ranges.length = 1 ∧
    ((Spreadsheet.run g .init
        [.cellMouseDown false false 3 0, .cellMouseMove 6 0]).getActiveRange?).map
        Range.start = some ⟨2, 0⟩ ∧
    ((Spreadsheet.run g .init
        [.cellMouseDown false false 3 0, .cellMouseMove 6 0]).getActiveRange?).map
        Range.end_ = some ⟨5, g.numCols - 2⟩ ∧
    ((Spreadsheet.run g .init
        [.cellMouseDown false false 3 0, .cellMouseMove 6 0]).getActiveRange?).map
        Range.minCol = some 0 ∧
    ((Spreadsheet.run g .init
        [.cellMouseDown false false 3 0, .cellMouseMove 6 0]).getActiveRange?).map
        Range.maxCol = some (g.numCols - 2) ∧
    ((Spreadsheet.run g .init
        [.cellMouseDown false false 3 0, .cellMouseMove 6 0]).getActiveRange?).map
        Range.minRow = some 2 ∧
    ((Spreadsheet.run g .init
        [.cellMouseDown false false 3 0, .cellMouseMove 6 0]).getActiveRange?).map
        Range.maxRow = some 5 ∧
    (Spreadsheet.run g .init
        [.cellMouseDown false false 3 0, .cellMouseMove 6 0]).selectingAllColumnsOfRow
        g row = decide (2 ≤ row ∧ row ≤ 5) := by
  rw [rowHeaderDrag_state g]
  refine ⟨rfl, ?_, ?_, ?_, ?_, ?_, ?_, ?_⟩ <;>
    simp +decide [Spreadsheet.getActiveRange?, Range.new, Range.setStart,
      Range.setEnd, Range.updateMinMax, Spreadsheet.selectingAllColumnsOfRow,
      Range.withinRow]
  all_goals try omega

/-- **C3 (witness).** The theorem at a grid with 8 rows per page and 3
data columns, sampling the predicate at row 3. -/
theorem rowHeader_drag_full_row_band_witness :
    (2 : Int) ≤ (4 : Int) ∧
    ((Spreadsheet.run ⟨8, 4⟩ .init
        [.cellMouseDown false false 3 0, .cellMouseMove 6 0]).getActiveRange?).map
        Range.end_ = some ⟨5, (4 : Int) - 2⟩ ∧
    (Spreadsheet.run ⟨8, 4⟩ .init
        [.cellMouseDown false false 3 0, .cellMouseMove 6 0]).selectingAllColumnsOfRow
        ⟨8, 4⟩ 3 = decide ((2 : Int) ≤ 3 ∧ (3 : Int) ≤ 5) := by
  have h := rowHeader_drag_full_row_band ⟨8, 4⟩ (by decide) 3
  exact ⟨by decide, h.2.2.1, h.2.2.2.2.2.2.2⟩

/-! ### C5: corner-header click -/

/-- **C5.** A pointer-down on the corner header (the row-header
column's own header, column index 0), without any drag, leaves exactly
one range spanning `(0,0)`–`(lastRow, lastCol)`, sets the mode to
`all`, and makes the row-fully-selected and column-fully-selected
predicates true for every row and column. -/
theorem cornerHeader_selects_all (g : Grid) (s : Spreadsheet) (ev : Ev)
    (hr : 1 ≤ g.rowsPerPage) (hc : 2 ≤ g.numCols) (row col : Int) :
    (s.handleColumnMouseDown g ev 0).ranges.length = 1 ∧
    ((s.handleColumnMouseDown g ev 0).getActiveRange?).map Range.minRow = some 0 ∧
    ((s.handleColumnMouseDown g ev 0).getActiveRange?).map Range.maxRow =
      some (g.rowsPerPage - 1) ∧
    ((s.handleColumnMouseDown g ev 0).getActiveRange?).map Range.minCol = some 0 ∧
    ((s.handleColumnMouseDown g ev 0).getActiveRange?).map Range.maxCol =
      some (g.numCols - 2) ∧
    (s.handleColumnMouseDown g ev 0).selecting = Selecting.all ∧
    (s.handleColumnMouseDown g ev 0).selectingAllColumnsOfRow g row = true ∧
    (s.handleColumnMouseDown g ev 0).selectingAllRowsOfColumn g col = true := by
  have hih : ((g.numCols - 1 : Int) == 0) = false := by
    rw [beq_eq_false_iff_ne]; omega
  refine ⟨?_, ?_, ?_, ?_, ?_, ?_, ?_, ?_⟩ <;>
    simp +decide [Spreadsheet.handleColumnMouseDown, Spreadsheet.beginSelection,
      Spreadsheet.endSelection, hih, Spreadsheet.getActiveRange?, updateLast,
      Range.new, Range.setStart, Range.setEnd, Range.updateMinMax,
      Spreadsheet.selectingAllColumnsOfRow, Spreadsheet.selectingAllRowsOfColumn]
  · omega
  · omega
  · omega
  · omega

/-- **C5 (witness).** The theorem at a 4-row grid with 3 data columns. -/
theorem cornerHeader_selects_all_witness :
    (1 : Int) ≤ (4 : Int) ∧ (2 : Int) ≤ (4 : Int) ∧
    ((Spreadsheet.init.handleColumnMouseDown ⟨4, 4⟩ ⟨false, false⟩
        0).getActiveRange?).map Range.maxRow = some ((4 : Int) - 1) ∧
    (Spreadsheet.init.handleColumnMouseDown ⟨4, 4⟩ ⟨false, false⟩
        0).selectingAllColumnsOfRow ⟨4, 4⟩ 2 = true := by
  have h := cornerHeader_selects_all ⟨4, 4⟩ Spreadsheet.init ⟨false, false⟩
    (by decide) (by decide) 2 1
  exact ⟨by decide, by decide, h.2.2.1, h.2.2.2.2.2.2.1⟩

/-! ### C4: shift-click -/

lemma select_shift_cell (g : Grid) (s : Spreadsheet) (pos idx : Int)
    (hidx : idx ≠ 0) :
    Spreadsheet.select g s ⟨true, false⟩ (.cell pos idx) =
      { ranges := updateLast (fun r => r.setEnd (pos - 1) (idx - 1))
          (if s.ranges.length > 1 then s.ranges.drop (s.ranges.length - 1)
           else s.ranges),
        selecting := Selecting.cell } := by
  by_cases hlen : s.ranges.length > 1 <;>
    simp +decide [Spreadsheet.select, Spreadsheet.endSelection, hidx, hlen]

/-- **C4.** A shift-modified pointer-down on an ordinary cell `B` (row
position `pos`, column index `idx ≠ 0`) when the active range's start
anchor is `A`: when more than one range exists the list is truncated to
its last element; the active range keeps start `A` and only its end is
set to `B = (pos-1, idx-1)`, so afterwards exactly one range exists and
it spans the rectangle with corners `A` and `B` inclusive: a point
`(r, c)` is inside it iff it lies in the min/max box of `A` and `B`. -/
theorem shiftClick_extends_active_range (g : Grid) (s : Spreadsheet)
    (a : Range) (ha : s.getActiveRange? = some a) (pos idx : Int)
    (hidx : idx ≠ 0) (r c : Int) :
    (s.handleCellMouseDown g ⟨true, false⟩ pos idx).ranges.length = 1 ∧
    ((s.handleCellMouseDown g ⟨true, false⟩ pos idx).getActiveRange?).map
      Range.start = some a.start ∧
    ((s.handleCellMouseDown g ⟨true, false⟩ pos idx).getActiveRange?).map
      Range.end_ = some ⟨pos - 1, idx - 1⟩ ∧
    ((s.handleCellMouseDown g ⟨true, false⟩ pos idx).getActiveRange?).map
        (fun rg => rg.isInside r c) =
      some (decide (min a.start.row (pos - 1) ≤ r) &&
        decide (r ≤ max a.start.row (pos - 1)) &&
        decide (min a.start.col (idx - 1) ≤ c) &&
        decide (c ≤ max a.start.col (idx - 1))) := by
  rw [getActiveRange?_eq_getLast?] at ha
  have hne : s.ranges ≠ [] := by
    intro h0
    rw [h0] at ha
    simp at ha
  have hkey : (if s.ranges.length > 1 then s.ranges.drop (s.ranges.length - 1)
      else s.ranges).getLast? = s.ranges.getLast? := by
    split
    · exact getLast?_drop_length_sub_one _
    · rfl
  have hlen1 : (if s.ranges.length > 1 then s.ranges.drop (s.ranges.length - 1)
      else s.ranges).length = 1 := by
    have hp := List.length_pos.mpr hne
    split
    · rw [List.length_drop]; omega
    · omega
  simp only [Spreadsheet.handleCellMouseDown]
  rw [select_shift_cell g s pos idx hidx]
  refine ⟨?_, ?_, ?_, ?_⟩
  · simp [updateLast_length, hlen1]
  · simp [Spreadsheet.getActiveRange?, ← List.getLast?_eq_getElem?,
      updateLast_getLast?, hkey, ha, Range.setEnd, Range.updateMinMax]
  · simp [Spreadsheet.getActiveRange?, ← List.getLast?_eq_getElem?,
      updateLast_getLast?, hkey, ha, Range.setEnd, Range.updateMinMax]
  · simp [Spreadsheet.getActiveRange?, ← List.getLast?_eq_getElem?,
      updateLast_getLast?, hkey, ha, Range.setEnd, Range.updateMinMax,
      Range.isInside]

/-- **C4 (witness).** The theorem at a concrete state holding two
ranges whose active one starts at `(3, 2)`, shift-clicking the cell at
row index 5, column index 1, sampling containment at `(4, 1)`. -/
theorem shiftClick_extends_active_range_witness :
    (Spreadsheet.getActiveRange?
        ⟨[Range.new 0 0, (Range.new 3 2)], Selecting.cell⟩ =
      some (Range.new 3 2)) ∧
    ((2 : Int) ≠ 0) ∧
    ((Spreadsheet.handleCellMouseDown ⟨8, 4⟩
        ⟨[Range.new 0 0, (Range.new 3 2)], Selecting.cell⟩ ⟨true, false⟩ 6
        2).ranges.length = 1 ∧
      ((Spreadsheet.handleCellMouseDown ⟨8, 4⟩
          ⟨[Range.new 0 0, (Range.new 3 2)], Selecting.cell⟩ ⟨true, false⟩ 6
          2).getActiveRange?).map
          (fun rg => rg.isInside 4 1) =
        some (decide (min (Range.new 3 2).start.row ((6 : Int) - 1) ≤ 4) &&
          decide ((4 : Int) ≤ max (Range.new 3 2).start.row ((6 : Int) - 1)) &&
          decide (min (Range.new 3 2).start.col ((2 : Int) - 1) ≤ 1) &&
          decide ((1 : Int) ≤ max (Range.new 3 2).start.col ((2 : Int) - 1)))) := by
  have h := shiftClick_extends_active_range ⟨8, 4⟩
    ⟨[Range.new 0 0, (Range.new 3 2)], Selecting.cell⟩ (Range.new 3 2)
    (by simp [Spreadsheet.getActiveRange?]) 6 2 (by decide) 4 1
  exact ⟨by simp [Spreadsheet.getActiveRange?], by decide, h.1, h.2.2.2⟩

/-! ### C8: `getSelectedData` -/

/-- JS `Array.prototype.slice(start, end)`, negative indices counted
from the end, both clamped to `[0, length]`. -/
def jsSlice {α : Type} (l : List α) (s e : Int) : List α :=
  let len : Int := l.length
  let s' := if s < 0 then max (len + s) 0 else min s len
  let e' := if e < 0 then max (len + e) 0 else min e len
  (l.take e'.toNat).drop s'.toNat

/-- JS `l[i]` for an integer index: `undefined` (`none`) when out of
range. -/
def jsIndex {α : Type} (l : List α) (i : Int) : Option α :=
  if 0 ≤ i then l[i.toNat]? else none

/-- The table collaborator as `getSelectedData` reads it:
`columnManager.columnsByIndex` projected to the columns' `field`
identifiers (index 0 is the prepended row-header column) and
`table.getRows()` projected to each row's data record, an association
list from field to cell value. -/
structure TableData (V : Type) where
  columnsByIndex : List String
  rows : List (List (String × V))

/-- The integer row indices `lo, lo+1, …, hi` walked by the JS loop
`for (r = minRow; r <= maxRow; r++)`. -/
def intRange (lo hi : Int) : List Int :=
  (List.range (hi + 1 - lo).toNat).map fun k : Nat => lo + (k : Int)

/-- Fetch `rows[r].getData()` for each index; `none` when some index is
out of range (the JS code would throw there). -/
def getRowsData {V : Type} (t : TableData V) : List Int →
    Option (List (List (String × V)))
  | [] => some []
  | r :: rest =>
      match jsIndex t.rows r, getRowsData t rest with
      | some row, some others => some (row :: others)
      | _, _ => none

/-- The JS return value `{ data, rowCount, columnCount }`.  A record's
value is `none` where the row lacks the field (JS `undefined`). -/
structure SelectedData (V : Type) where
  data : List (List (String × Option V))
  rowCount : Nat
  columnCount : Nat

/-- JS `getSelectedData(range)` for an explicit range argument:
`columnsByIndex.slice(minCol + 1, maxCol + 2)` skips the row header,
then one record per row from `minRow` to `maxRow`, keyed by the sliced
columns' fields. -/
def getSelectedData {V : Type} (t : TableData V) (range : Range) :
    Option (SelectedData V) :=
  let columns := jsSlice t.columnsByIndex (range.minCol + 1) (range.maxCol + 2)
  (getRowsData t (intRange range.minRow range.maxRow)).map fun rowsData =>
    let data := rowsData.map fun row => columns.map fun f => (f, row.lookup f)
    { data := data, rowCount := data.length, columnCount := columns.length }

/-- JS `getSelectedData(range)` with the `if (!range) range =
this.getActiveRange()` default. -/
def getSelectedDataOr {V : Type} (t : TableData V) (s : Spreadsheet) :
    Option Range → Option (SelectedData V)
  | some range => getSelectedData t range
  | none =>
      match s.getActiveRange? with
      | some range => getSelectedData t range
      | none => none

lemma intRange_length (lo hi : Int) :
    (intRange lo hi).length = (hi + 1 - lo).toNat := by
  rw [intRange, List.length_map, List.length_range]

lemma mem_intRange {lo hi x : Int} (hx : x ∈ intRange lo hi) :
    lo ≤ x ∧ x ≤ hi := by
  rw [intRange] at hx
  obtain ⟨k, hk, rfl⟩ := List.mem_map.mp hx
  rw [List.mem_range] at hk
  omega

lemma getRowsData_eq_some {V : Type} (t : TableData V) :
    ∀ idxs : List Int, (∀ i ∈ idxs, 0 ≤ i ∧ i.toNat < t.rows.length) →
      ∃ rd, getRowsData t idxs = some rd ∧ rd.length = idxs.length
  | [], _ => ⟨[], rfl, rfl⟩
  | i :: rest, h => by
      obtain ⟨hi0, hilen⟩ := h i (by simp)
      obtain ⟨rd, hrd, hlen⟩ :=
        getRowsData_eq_some t rest (fun j hj => h j (by simp [hj]))
      have hidx : jsIndex t.rows i = some (t.rows.get ⟨i.toNat, hilen⟩) := by
        simp [jsIndex, hi0, List.getElem?_eq_getElem hilen]
      refine ⟨t.rows.get ⟨i.toNat, hilen⟩ :: rd, ?_, by simp [hlen]⟩
      simp [getRowsData, hidx, hrd]

/-- **C8.** For every range with consistent bounds lying within the
grid, `getSelectedData` returns one record per row from `minRow` to
`maxRow`, each keyed by exactly the fields of the data columns `minCol`
through `maxCol` (the row-header column excluded), with
`rowCount = maxRow − minRow + 1` and
`columnCount = maxCol − minCol + 1`; called with no range argument it
uses the active range. -/
theorem getSelectedData_spec {V : Type} (t : TableData V) (range : Range)
    (hcons : range.boundsConsistent)
    (hr0 : 0 ≤ range.minRow) (hrlen : range.maxRow < (t.rows.length : Int))
    (hc0 : 0 ≤ range.minCol)
    (hclen : range.maxCol + 2 ≤ (t.columnsByIndex.length : Int))
    (s : Spreadsheet) (hs : s.getActiveRange? = some range) :
    ((getSelectedData t range).map fun sd => (sd.rowCount : Int)) =
      some (range.maxRow - range.minRow + 1) ∧
    ((getSelectedData t range).map fun sd => (sd.columnCount : Int)) =
      some (range.maxCol - range.minCol + 1) ∧
    ((getSelectedData t range).map fun sd => (sd.data.length : Int)) =
      some (range.maxRow - range.minRow + 1) ∧
    ((getSelectedData t range).map fun sd =>
        sd.data.map fun rec => rec.map Prod.fst) =
      some (List.replicate (range.maxRow - range.minRow + 1).toNat
        ((t.columnsByIndex.drop (range.minCol + 1).toNat).take
          (range.maxCol - range.minCol + 1).toNat)) ∧
    getSelectedDataOr t s none = getSelectedData t range := by
  obtain ⟨hb1, hb2, hb3, hb4⟩ := hcons
  have hwr : range.minRow ≤ range.maxRow := by rw [hb1, hb2]; exact min_le_max
  have hwc : range.minCol ≤ range.maxCol := by rw [hb3, hb4]; exact min_le_max
  have hslice : jsSlice t.columnsByIndex (range.minCol + 1) (range.maxCol + 2) =
      (t.columnsByIndex.drop (range.minCol + 1).toNat).take
        (range.maxCol - range.minCol + 1).toNat := by
    unfold jsSlice
    have h1 : ¬ (range.minCol + 1 < 0) := by omega
    have h2 : ¬ (range.maxCol + 2 < 0) := by omega
    have hmin1 : min (range.minCol + 1) (t.columnsByIndex.length : Int) =
        range.minCol + 1 := by omega
    have hmin2 : min (range.maxCol + 2) (t.columnsByIndex.length : Int) =
        range.maxCol + 2 := by omega
    have hsub : (range.maxCol + 2).toNat - (range.minCol + 1).toNat =
        (range.maxCol - range.minCol + 1).toNat := by omega
    simp only [if_neg h1, if_neg h2, hmin1, hmin2]
    rw [List.drop_take, hsub]
  obtain ⟨rd, hrd, hrdlen⟩ :=
    getRowsData_eq_some t (intRange range.minRow range.maxRow)
      (fun i hi => by
        have hmem := mem_intRange hi
        exact ⟨by omega, by omega⟩)
  have hrdlen' : rd.length = (range.maxRow - range.minRow + 1).toNat := by
    rw [hrdlen, intRange_length]; omega
  have hcollen :
      (jsSlice t.columnsByIndex (range.minCol + 1) (range.maxCol + 2)).length =
        (range.maxCol - range.minCol + 1).toNat := by
    rw [hslice, List.length_take, List.length_drop]
    omega
  have hmain : getSelectedData t range = some
      { data := rd.map fun row =>
          (jsSlice t.columnsByIndex (range.minCol + 1)
            (range.maxCol + 2)).map fun f => (f, row.lookup f)
        rowCount := (rd.map fun row =>
          (jsSlice t.columnsByIndex (range.minCol + 1)
            (range.maxCol + 2)).map fun f => (f, row.lookup f)).length
        columnCount := (jsSlice t.columnsByIndex (range.minCol + 1)
          (range.maxCol + 2)).length } := by
    unfold getSelectedData
    rw [hrd]
    rfl
  refine ⟨?_, ?_, ?_, ?_, ?_⟩
  · rw [hmain, Option.map_some']
    dsimp only
    rw [List.length_map, hrdlen']
    congr 1
    omega
  · rw [hmain, Option.map_some']
    dsimp only
    rw [hcollen]
    congr 1
    omega
  · rw [hmain, Option.map_some']
    dsimp only
    rw [List.length_map, hrdlen']
    congr 1
    omega
  · rw [hmain, Option.map_some']
    dsimp only
    congr 1
    rw [← hslice, ← hrdlen']
    rw [List.map_map]
    have hkeys : ((fun rec : List (String × Option V) =>
        List.map Prod.fst rec) ∘ fun row : List (String × V) =>
        (jsSlice t.columnsByIndex (range.minCol + 1)
          (range.maxCol + 2)).map fun f => (f, row.lookup f)) =
        fun _ => jsSlice t.columnsByIndex (range.minCol + 1)
          (range.maxCol + 2) := by
      funext row
      simp only [Function.comp, List.map_map]
      rw [show (Prod.fst ∘ fun f : String => (f, List.lookup f row)) = id from
        rfl, List.map_id]
    rw [hkeys, ← List.map_const]
    rfl
  · simp [getSelectedDataOr, hs]

/-- **C8 (witness).** The theorem at a 3-row table with three data
columns `a`, `b`, `c` and a range spanning rows 0–1 and data columns
0–1: exactly 2 records, `rowCount = 2`, `columnCount = 2`, keys
`["a", "b"]` in both records. -/
theorem getSelectedData_spec_witness :
    ((Range.new 0 0).setEnd 1 1).boundsConsistent ∧
    (((getSelectedData
        ⟨["--row-position", "a", "b", "c"],
          [[("a", (1 : Int)), ("b", 2), ("c", 3)],
            [("a", 4), ("b", 5), ("c", 6)],
            [("a", 7), ("b", 8), ("c", 9)]]⟩
        ((Range.new 0 0).setEnd 1 1)).map fun sd => (sd.rowCount : Int)) =
      some (((Range.new 0 0).setEnd 1 1).maxRow -
        ((Range.new 0 0).setEnd 1 1).minRow + 1)) ∧
    (((getSelectedData
        ⟨["--row-position", "a", "b", "c"],
          [[("a", (1 : Int)), ("b", 2), ("c", 3)],
            [("a", 4), ("b", 5), ("c", 6)],
            [("a", 7), ("b", 8), ("c", 9)]]⟩
        ((Range.new 0 0).setEnd 1 1)).map fun sd =>
          sd.data.map fun rec => rec.map Prod.fst) =
      some (List.replicate (((Range.new 0 0).setEnd 1 1).maxRow -
          ((Range.new 0 0).setEnd 1 1).minRow + 1).toNat
        ((["--row-position", "a", "b", "c"].drop
            (((Range.new 0 0).setEnd 1 1).minCol + 1).toNat).take
          (((Range.new 0 0).setEnd 1 1).maxCol -
            ((Range.new 0 0).setEnd 1 1).minCol + 1).toNat))) := by
  have h := getSelectedData_spec
    ⟨["--row-position", "a", "b", "c"],
      [[("a", (1 : Int)), ("b", 2), ("c", 3)],
        [("a", 4), ("b", 5), ("c", 6)],
        [("a", 7), ("b", 8), ("c", 9)]]⟩
    ((Range.new 0 0).setEnd 1 1) ⟨rfl, rfl, rfl, rfl⟩ (by decide) (by decide)
    (by decide) (by decide) ⟨[(Range.new 0 0).setEnd 1 1], Selecting.off⟩ rfl
  exact ⟨⟨rfl, rfl, rfl, rfl⟩, h.1, h.2.2.2.1⟩

/-! ### C9: initialization refuses to attach beside SelectRow -/

/-- The default of the `rowHeaderField` table option. -/
def rowHeaderField : String := "--row-position"

/-- A table column as `initializeTable` reads and writes it. -/
structure Column where
  title : String
  field : String
  headerSort : Bool
  resizable : Bool
  frozen : Bool
  editable : Bool
  cssClass : String
deriving Repr, DecidableEq

/-- JS `initializeTable`: disable header sorting on every existing
column and prepend the frozen row-header column. -/
def initializeTable (columns : List Column) : List Column :=
  { title := "", field := rowHeaderField, headerSort := false,
    resizable := true, frozen := true, editable := false,
    cssClass := "tabulator-row-header" } ::
    columns.map fun c => { c with headerSort := false }

/-- The events the `initialize` method subscribes to (the seven
`this.subscribe` calls plus the `table-destroy` cleanup subscription;
the global document `mouseup` listener is registered alongside). -/
def subscribedEvents : List String :=
  ["column-mousedown", "column-mousemove", "cell-mousedown",
    "cell-mousemove", "cell-rendered", "page-changed", "table-layout",
    "table-destroy"]

/-- What the `initialize` method did: whether the startup error was
reported (JS `console.error`), which events were subscribed, and the
table's column list afterwards. -/
structure InitResult where
  errorReported : Bool
  subscriptions : List String
  columns : List Column
deriving Repr, DecidableEq

/-- JS `initialize`: when the `selectRow` module is present on the
table it reports the startup error and returns before subscribing to
anything or touching the columns; otherwise it subscribes to all events
and runs `initializeTable`. -/
def initializeModule (selectRowActive : Bool) (columns : List Column) :
    InitResult :=
  if selectRowActive then
    { errorReported := true, subscriptions := [], columns := columns }
  else
    { errorReported := false, subscriptions := subscribedEvents,
      columns := initializeTable columns }

/-- **C9.** With the mutually-exclusive `selectRow` module active,
initialization reports a startup error, subscribes to no events and
leaves the table's columns untouched; with it absent, initialization
reports no error and attaches normally — it subscribes to the module's
events (a non-empty list) and rewrites the columns (sorting disabled,
row-header column prepended). -/
theorem initializeModule_selectRow_conflict (columns : List Column) :
    (initializeModule true columns).errorReported = true ∧
    (initializeModule true columns).subscriptions = [] ∧
    (initializeModule true columns).columns = columns ∧
    (initializeModule false columns).errorReported = false ∧
    (initializeModule false columns).subscriptions = subscribedEvents ∧
    subscribedEvents ≠ [] ∧
    (initializeModule false columns).columns = initializeTable columns :=
  ⟨rfl, rfl, rfl, rfl, rfl, by simp [subscribedEvents], rfl⟩

end Tabulator
